import Mathlib

/-!
Verification of the conversation-management core of the CampusEventer chatbot
service (src/chatbot/services/groq_service.py), shallowly embedded in Lean.

Modelling conventions:
* The in-memory dict `self.conversations` becomes an association list
  `Store := List (String × List Message)`; Python dict semantics (unique keys,
  assignment replaces in place, `del` removes the key) are captured by
  `lookupConv`, `setConv`, `eraseConv`.
* Nondeterministic inputs of `chat` become explicit parameters: the uuid the
  service would generate for a missing conversation id (`freshConvId`), the
  uuids of the two stored messages, the `datetime.now()` instants (`now` for
  line 69, `failNow` for line 98), and the upstream Groq call as a function
  from the submitted message list to `Except Unit String` (`Except.error`
  models any raised exception).
* The Python `try:` block of lines 58-91 is an `Except Unit` computation; the
  bare `except Exception` of line 93 is the final `match`.  Crucially,
  `self.conversations[conversation_id].append(...)` (lines 72 and 80) uses
  dict `__getitem__`, which raises `KeyError` when the key is absent; this is
  modelled by `appendMsg` returning `Except.error` in that case, and that
  error is swallowed by the same `except` clause.
-/

/-- A stored chat message, as built on lines 72-77 and 80-85 of
groq_service.py: a dict with keys id, role, content, timestamp.  Timestamps
are modelled as naturals (abstract instants). -/
structure Message where
  id : String
  role : String
  content : String
  timestamp : Nat
deriving Repr, DecidableEq

/-- One entry of the message list submitted to the upstream model: a dict
with keys role and content (lines 46-56). -/
structure PromptEntry where
  role : String
  content : String
deriving Repr, DecidableEq

/-- The dict returned by GroqChatService.chat (lines 87-91 and 95-99). -/
structure ChatResult where
  message : String
  conversation_id : String
  timestamp : Nat
deriving Repr, DecidableEq

/-- The in-memory conversation store `self.conversations`: a mapping from
conversation id to its ordered message list, modelled as an association
list with unique keys, in insertion order like a Python dict. -/
abbrev Store := List (String × List Message)

/-- Dict lookup `self.conversations.get(cid)` / `cid in self.conversations`
support: find the value stored under a key. -/
def lookupConv : Store → String → Option (List Message)
  | [], _ => none
  | (k, v) :: rest, cid => if k = cid then some v else lookupConv rest cid

/-- Dict assignment `self.conversations[cid] = ms`: replace the value in
place when the key exists, otherwise add the key at the end (Python dicts
keep insertion order). -/
def setConv : Store → String → List Message → Store
  | [], cid, ms => [(cid, ms)]
  | (k, v) :: rest, cid, ms =>
      if k = cid then (cid, ms) :: rest else (k, v) :: setConv rest cid ms

/-- Dict deletion `del self.conversations[cid]`: remove the entry for the
key (dict keys are unique, so removing every matching entry coincides with
removing the single one). -/
def eraseConv : Store → String → Store
  | [], _ => []
  | (k, v) :: rest, cid =>
      if k = cid then eraseConv rest cid else (k, v) :: eraseConv rest cid

/-- Membership test `conversation_id in self.conversations` (line 105). -/
def hasConv (st : Store) (cid : String) : Bool :=
  (lookupConv st cid).isSome

/-- GroqChatService.get_system_prompt (lines 18-32): the fixed system
prompt string. -/
def get_system_prompt : String :=
  "You are a helpful AI assistant for a Campus Event Management Platform. You can help users with:

1. **Event Information**: Answer questions about campus events, registration processes, and event details
2. **Platform Features**: Explain how to use the platform\x27s features like event creation, registration, attendance tracking
3. **General Assistance**: Help with navigation, account management, and platform-related queries

Key features of the platform:
- Students can browse and register for events
- Administrators can create and manage events
- Real-time event capacity tracking
- Attendance management and feedback collection
- Analytics dashboard for event insights

Be friendly, helpful, and concise in your responses. If users ask about specific events or account details, remind them that you can provide general guidance but they should check the platform directly for their personal information."

/-- The fixed apology returned from the except-branch (line 96). -/
def apologyMessage : String :=
  "I\x27m sorry, I\x27m having trouble connecting right now. Please try again in a moment."

/-- Python slice `xs[-n:]`: the last min(n, length) elements of a list. -/
def lastN {α : Type} (n : Nat) (xs : List α) : List α :=
  xs.drop (xs.length - n)

/-- Lines 46-56 of chat: the message list submitted upstream — one system
entry, then the last 10 history messages mapped to role/content, then the
new user message. -/
def assembleMessages (history : List Message) (message : String) : List PromptEntry :=
  { role := "system", content := get_system_prompt } ::
    ((lastN 10 history).map (fun m => { role := m.role, content := m.content })
      ++ [{ role := "user", content := message }])

/-- Python truthiness test `if not conversation_id:` (line 38): true for
None and for the empty string. -/
def isFalsyId : Option String → Bool
  | none => true
  | some s => s == ""

/-- Lines 38-40 of chat: when the supplied conversation id is falsy,
generate a fresh id and initialize an empty conversation for it; otherwise
keep the supplied id and leave the store alone.  Returns the operating id
and the store after this step. -/
def resolveConversation (st : Store) (conversation_id : Option String)
    (freshConvId : String) : String × Store :=
  if isFalsyId conversation_id then
    (freshConvId, setConv st freshConvId [])
  else
    (conversation_id.getD "", st)

/-- `self.conversations[cid].append(m)` (lines 72 and 80): dict
`__getitem__` raises KeyError when the key is absent (`Except.error`),
otherwise the stored list grows by one element at the end. -/
def appendMsg (st : Store) (cid : String) (m : Message) : Except Unit Store :=
  match lookupConv st cid with
  | some ms => Except.ok (setConv st cid (ms ++ [m]))
  | none => Except.error ()

/-- Lines 42-99 of GroqChatService.chat: history read, prompt assembly,
upstream call and history update, on the operating id `cid` and the store
`st0` produced by the id-resolution step. -/
def chatCore (st0 : Store) (cid : String) (message : String)
    (userMsgId assistantMsgId : String)
    (upstream : List PromptEntry → Except Unit String)
    (now failNow : Nat) : ChatResult × Store :=
  let history := (lookupConv st0 cid).getD []
  let msgs := assembleMessages history message
  let attempt : Except Unit (ChatResult × Store) := do
    let response_content ← upstream msgs
    let st1 ← appendMsg st0 cid
      { id := userMsgId, role := "user", content := message, timestamp := now }
    let st2 ← appendMsg st1 cid
      { id := assistantMsgId, role := "assistant", content := response_content,
        timestamp := now }
    pure ({ message := response_content, conversation_id := cid,
            timestamp := now }, st2)
  match attempt with
  | Except.ok out => out
  | Except.error _ =>
      ({ message := apologyMessage, conversation_id := cid,
         timestamp := failNow }, st0)

/-- GroqChatService.chat (lines 37-99).  `upstream` is the Groq completion
call as a function of the submitted message list; `now` is the
`datetime.now()` of line 69, `failNow` the one of line 98. -/
def chat (st : Store) (message : String) (conversation_id : Option String)
    (freshConvId userMsgId assistantMsgId : String)
    (upstream : List PromptEntry → Except Unit String)
    (now failNow : Nat) : ChatResult × Store :=
  let r := resolveConversation st conversation_id freshConvId
  chatCore r.2 r.1 message userMsgId assistantMsgId upstream now failNow

/-- GroqChatService.get_conversation_history (lines 101-102). -/
def get_conversation_history (st : Store) (conversation_id : String) :
    List Message :=
  (lookupConv st conversation_id).getD []

/-- GroqChatService.clear_conversation (lines 104-108): returns whether the
conversation existed, and the store after deletion. -/
def clear_conversation (st : Store) (conversation_id : String) :
    Bool × Store :=
  if hasConv st conversation_id then
    (true, eraseConv st conversation_id)
  else
    (false, st)

/-- A mocked upstream model that always answers with a fixed reply. -/
def okUpstream (reply : String) : List PromptEntry → Except Unit String :=
  fun _ => Except.ok reply

/-- A mocked upstream model whose call always raises. -/
def failingUpstream : List PromptEntry → Except Unit String :=
  fun _ => Except.error ()

/-- A conversation whose messages alternate user, assistant, user,
assistant, ... starting with a user message — i.e. it is a sequence of
user→assistant pairs. -/
inductive Alternating : List Message → Prop
  | nil : Alternating []
  | pair (u a : Message) (rest : List Message) :
      u.role = "user" → a.role = "assistant" → Alternating rest →
      Alternating (u :: a :: rest)

/-- Every conversation held in the store is a sequence of user→assistant
pairs. -/
def StoreAlt (st : Store) : Prop :=
  ∀ cid ms, lookupConv st cid = some ms → Alternating ms

/-- Store states reachable from the empty store by any sequence of the
service's operations.  chat and clear_conversation are the state-changing
steps; get_conversation_history reads the store without returning a
modified one, so it contributes no step. -/
inductive Reachable : Store → Prop
  | init : Reachable []
  | step_chat (st : Store) (msg : String) (cido : Option String)
      (fresh uid aid : String) (u : List PromptEntry → Except Unit String)
      (ts fts : Nat) : Reachable st →
      Reachable (chat st msg cido fresh uid aid u ts fts).2
  | step_clear (st : Store) (cid : String) : Reachable st →
      Reachable (clear_conversation st cid).2

/-! ### Store lemmas -/

lemma lookupConv_setConv (st : Store) (k q : String) (ms : List Message) :
    lookupConv (setConv st k ms) q = if k = q then some ms else lookupConv st q := by
  induction st with
  | nil => simp [setConv, lookupConv]
  | cons hd tl ih =>
      obtain ⟨k0, v0⟩ := hd
      by_cases hk : k0 = k
      · subst hk
        simp only [setConv, if_pos rfl, lookupConv]
        by_cases hq : k0 = q <;> simp [hq]
      · simp only [setConv, if_neg hk, lookupConv]
        by_cases hq : k0 = q
        · subst hq
          have hk' : ¬ k = k0 := fun h => hk h.symm
          simp [hk']
        · simp [hq, ih]

lemma lookupConv_eraseConv (st : Store) (k q : String) :
    lookupConv (eraseConv st k) q = if k = q then none else lookupConv st q := by
  induction st with
  | nil => simp [eraseConv, lookupConv]
  | cons hd tl ih =>
      obtain ⟨k0, v0⟩ := hd
      by_cases hk : k0 = k
      · subst hk
        simp only [eraseConv, if_pos rfl, ih, lookupConv]
        by_cases hq : k0 = q <;> simp_all
      · simp only [eraseConv, if_neg hk, lookupConv]
        by_cases hq : k0 = q
        · subst hq
          have hk' : ¬ k = k0 := fun h => hk h.symm
          simp [hk']
        · simp [hq, ih]

lemma setConv_setConv (st : Store) (k : String) (ms ms' : List Message) :
    setConv (setConv st k ms) k ms' = setConv st k ms' := by
  induction st with
  | nil => simp [setConv]
  | cons hd tl ih =>
      obtain ⟨k0, v0⟩ := hd
      by_cases hk : k0 = k
      · subst hk
        simp [setConv]
      · simp [setConv, hk, ih]

lemma lastN_length {α : Type} (n : Nat) (xs : List α) :
    (lastN n xs).length = min n xs.length := by
  simp [lastN]
  omega

/-! ### Scenario lemmas for the try/except body of chat -/

lemma chatCore_ok (st0 : Store) (cid msg uid aid resp : String)
    (u : List PromptEntry → Except Unit String) (ts fts : Nat)
    (ms : List Message)
    (hex : lookupConv st0 cid = some ms)
    (hu : u (assembleMessages ms msg) = Except.ok resp) :
    chatCore st0 cid msg uid aid u ts fts =
      ({ message := resp, conversation_id := cid, timestamp := ts },
       setConv st0 cid
         (ms ++ [{ id := uid, role := "user", content := msg, timestamp := ts },
                 { id := aid, role := "assistant", content := resp,
                   timestamp := ts }])) := by
  simp [chatCore, hex, hu, appendMsg, lookupConv_setConv, setConv_setConv,
    Bind.bind, Except.bind, Functor.map, Except.map, Pure.pure, Except.pure]

lemma chatCore_upstream_err (st0 : Store) (cid msg uid aid : String)
    (u : List PromptEntry → Except Unit String) (ts fts : Nat)
    (hu : u (assembleMessages ((lookupConv st0 cid).getD []) msg) =
      Except.error ()) :
    chatCore st0 cid msg uid aid u ts fts =
      ({ message := apologyMessage, conversation_id := cid,
         timestamp := fts }, st0) := by
  simp [chatCore, hu, Bind.bind, Except.bind]

lemma chatCore_absent (st0 : Store) (cid msg uid aid : String)
    (u : List PromptEntry → Except Unit String) (ts fts : Nat)
    (habs : lookupConv st0 cid = none) :
    chatCore st0 cid msg uid aid u ts fts =
      ({ message := apologyMessage, conversation_id := cid,
         timestamp := fts }, st0) := by
  rcases hur : u (assembleMessages [] msg) with e | resp
  · simp [chatCore, hur, habs, Bind.bind, Except.bind]
  · simp [chatCore, hur, habs, appendMsg, Bind.bind, Except.bind,
      Functor.map, Except.map]

lemma chatCore_congr (st0 : Store) (cid msg uid aid : String)
    (u1 u2 : List PromptEntry → Except Unit String) (ts fts : Nat)
    (h : u1 (assembleMessages ((lookupConv st0 cid).getD []) msg)
       = u2 (assembleMessages ((lookupConv st0 cid).getD []) msg)) :
    chatCore st0 cid msg uid aid u1 ts fts
      = chatCore st0 cid msg uid aid u2 ts fts := by
  simp only [chatCore, h]

lemma chatCore_frame (st0 : Store) (cid msg uid aid : String)
    (u : List PromptEntry → Except Unit String) (ts fts : Nat)
    (q : String) (hq : q ≠ cid) :
    lookupConv (chatCore st0 cid msg uid aid u ts fts).2 q
      = lookupConv st0 q := by
  rcases hl : lookupConv st0 cid with _ | ms
  · rw [chatCore_absent st0 cid msg uid aid u ts fts hl]
  · rcases hu : u (assembleMessages ms msg) with e | resp
    · cases e
      rw [chatCore_upstream_err st0 cid msg uid aid u ts fts
        (by simpa [hl] using hu)]
    · rw [chatCore_ok st0 cid msg uid aid resp u ts fts ms hl hu]
      have hcq : ¬ cid = q := fun h => hq h.symm
      simp [lookupConv_setConv, hcq]

lemma chatCore_result_id (st0 : Store) (cid msg uid aid : String)
    (u : List PromptEntry → Except Unit String) (ts fts : Nat) :
    (chatCore st0 cid msg uid aid u ts fts).1.conversation_id = cid := by
  rcases hl : lookupConv st0 cid with _ | ms
  · rw [chatCore_absent st0 cid msg uid aid u ts fts hl]
  · rcases hu : u (assembleMessages ms msg) with e | resp
    · cases e
      rw [chatCore_upstream_err st0 cid msg uid aid u ts fts
        (by simpa [hl] using hu)]
    · rw [chatCore_ok st0 cid msg uid aid resp u ts fts ms hl hu]

/-! ### Alternation lemmas -/

lemma Alternating.append_pair {ms : List Message} (h : Alternating ms)
    {u a : Message} (hu : u.role = "user") (ha : a.role = "assistant") :
    Alternating (ms ++ [u, a]) := by
  induction h with
  | nil => exact .pair _ _ _ hu ha .nil
  | pair u' a' rest hu' ha' hrest ih => exact .pair _ _ _ hu' ha' ih

lemma Alternating.length_even {ms : List Message} (h : Alternating ms) :
    ms.length % 2 = 0 := by
  induction h with
  | nil => rfl
  | pair u a rest _ _ _ ih =>
      simp only [List.length_cons]
      omega

lemma storeAlt_set {st : Store} (h : StoreAlt st) {k : String}
    {ms : List Message} (hms : Alternating ms) : StoreAlt (setConv st k ms) := by
  intro q ms' hq
  rw [lookupConv_setConv] at hq
  by_cases hk : k = q
  · rw [if_pos hk] at hq
    cases hq
    exact hms
  · rw [if_neg hk] at hq
    exact h q ms' hq

lemma storeAlt_erase {st : Store} (h : StoreAlt st) (k : String) :
    StoreAlt (eraseConv st k) := by
  intro q ms' hq
  rw [lookupConv_eraseConv] at hq
  by_cases hk : k = q
  · rw [if_pos hk] at hq
    cases hq
  · rw [if_neg hk] at hq
    exact h q ms' hq

lemma storeAlt_chatCore {st0 : Store} (h : StoreAlt st0) (cid msg uid aid : String)
    (u : List PromptEntry → Except Unit String) (ts fts : Nat) :
    StoreAlt (chatCore st0 cid msg uid aid u ts fts).2 := by
  rcases hl : lookupConv st0 cid with _ | ms
  · rw [chatCore_absent st0 cid msg uid aid u ts fts hl]
    exact h
  · rcases hu : u (assembleMessages ms msg) with e | resp
    · cases e
      rw [chatCore_upstream_err st0 cid msg uid aid u ts fts
        (by simpa [hl] using hu)]
      exact h
    · rw [chatCore_ok st0 cid msg uid aid resp u ts fts ms hl hu]
      exact storeAlt_set h ((h cid ms hl).append_pair rfl rfl)

lemma storeAlt_resolve {st : Store} (h : StoreAlt st)
    (cido : Option String) (fresh : String) :
    StoreAlt (resolveConversation st cido fresh).2 := by
  unfold resolveConversation
  split
  · exact storeAlt_set h Alternating.nil
  · exact h

/-! ### Claim theorems -/

/-- Claim C6: clear_conversation returns true exactly when the conversation
for the id existed, and removes it from the store; hence clearing twice in a
row on a store where the conversation exists returns true the first time and
false the second time. -/
theorem claim_C6_clear_idempotence (st : Store) (cid : String) :
    (clear_conversation st cid).1 = hasConv st cid
    ∧ lookupConv (clear_conversation st cid).2 cid = none
    ∧ (hasConv st cid = true →
        (clear_conversation st cid).1 = true
        ∧ (clear_conversation (clear_conversation st cid).2 cid).1 = false) := by
  rcases hl : lookupConv st cid with _ | ms
  · have h : hasConv st cid = false := by simp [hasConv, hl]
    simp [clear_conversation, h, hl]
  · have h : hasConv st cid = true := by simp [hasConv, hl]
    have hnone : lookupConv (eraseConv st cid) cid = none := by
      simp [lookupConv_eraseConv]
    have h2 : hasConv (eraseConv st cid) cid = false := by
      simp [hasConv, hnone]
    simp [clear_conversation, h, hnone, h2]

/-- Claim C6 witness: on a store holding conversation c, the first clear of
c returns true and the second returns false. -/
theorem claim_C6_witness :
    (clear_conversation [("c", [])] "c").1 = true
    ∧ (clear_conversation (clear_conversation [("c", [])] "c").2 "c").1
        = false :=
  (claim_C6_clear_idempotence [("c", [])] "c").2.2 rfl

/-- Claim C7: get_conversation_history returns the empty sequence for an id
absent from the store and the stored message sequence for a present id; it
is a total function, so it never signals an error. -/
theorem claim_C7_get_history_total (st : Store) (cid : String) :
    (lookupConv st cid = none → get_conversation_history st cid = [])
    ∧ ∀ ms : List Message, lookupConv st cid = some ms →
        get_conversation_history st cid = ms := by
  constructor
  · intro h
    simp [get_conversation_history, h]
  · intro ms h
    simp [get_conversation_history, h]

/-- Claim C7 witness: an unknown id yields the empty sequence and a known id
yields its stored sequence. -/
theorem claim_C7_witness :
    get_conversation_history [] "missing" = []
    ∧ get_conversation_history
        [("c", [{ id := "x", role := "user", content := "a", timestamp := 1 }])]
        "c"
      = [{ id := "x", role := "user", content := "a", timestamp := 1 }] :=
  ⟨(claim_C7_get_history_total [] "missing").1 rfl,
   (claim_C7_get_history_total
      [("c", [{ id := "x", role := "user", content := "a", timestamp := 1 }])]
      "c").2
     [{ id := "x", role := "user", content := "a", timestamp := 1 }] rfl⟩

/-- Claim C9: a chat call whose conversation id is the empty string behaves
exactly like a call with no conversation id — the fresh id is used, an
empty conversation is initialized for it, and the returned conversation id
is the fresh one, not the empty string. -/
theorem claim_C9_empty_string_id (st : Store) (msg fresh uid aid : String)
    (u : List PromptEntry → Except Unit String) (ts fts : Nat) :
    chat st msg (some "") fresh uid aid u ts fts
      = chat st msg none fresh uid aid u ts fts
    ∧ (chat st msg (some "") fresh uid aid u ts fts).1.conversation_id = fresh
    ∧ lookupConv (resolveConversation st (some "") fresh).2 fresh
        = some [] := by
  refine ⟨rfl, ?_, ?_⟩
  · show (chatCore (resolveConversation st (some "") fresh).2
      (resolveConversation st (some "") fresh).1 msg uid aid u ts fts).1.conversation_id = fresh
    rw [chatCore_result_id]
    rfl
  · simp [resolveConversation, isFalsyId, lookupConv_setConv]

/-- Claim C10: frame conditions — for distinct ids, chat on id1 and
clear_conversation on id1 leave the conversation stored under id2
unchanged.  (get_conversation_history is embedded as a pure read: it
returns a message list and no modified store, so it leaves the entire
store unchanged by construction.) -/
theorem claim_C10_frame (st : Store) (msg id1 id2 fresh uid aid : String)
    (u : List PromptEntry → Except Unit String) (ts fts : Nat)
    (h1 : id1 ≠ "") (h2 : id2 ≠ id1) :
    lookupConv (chat st msg (some id1) fresh uid aid u ts fts).2 id2
      = lookupConv st id2
    ∧ lookupConv (clear_conversation st id1).2 id2 = lookupConv st id2 := by
  have hres : resolveConversation st (some id1) fresh = (id1, st) := by
    simp [resolveConversation, isFalsyId, h1]
  constructor
  · show lookupConv (chatCore (resolveConversation st (some id1) fresh).2
      (resolveConversation st (some id1) fresh).1 msg uid aid u ts fts).2 id2
        = lookupConv st id2
    rw [hres]
    exact chatCore_frame st id1 msg uid aid u ts fts id2 h2
  · unfold clear_conversation
    split
    · have h12 : ¬ id1 = id2 := fun h => h2 h.symm
      simp [lookupConv_eraseConv, h12]
    · rfl

/-- Claim C10 witness: a chat and a clear on id a leave the conversation
stored under id b untouched. -/
theorem claim_C10_witness :
    lookupConv (chat [("b", [])] "hi" (some "a") "f" "u1" "a1"
        (okUpstream "x") 3 9).2 "b"
      = lookupConv [("b", [])] "b"
    ∧ lookupConv (clear_conversation [("b", [])] "a").2 "b"
      = lookupConv [("b", [])] "b" :=
  claim_C10_frame [("b", [])] "hi" "a" "b" "f" "u1" "a1" (okUpstream "x") 3 9
    (by decide) (by decide)

/-- Claim C2: the message list submitted to the upstream model is one
system-role entry first, then the most recent min(10, length) stored
messages of the conversation in order (role and content preserved), then
the new user message last; its length is min 10 (history length) + 2, so a
30-message history yields exactly 12 entries.  Moreover chat consults the
upstream model only through this assembled list: two upstream functions
agreeing on it make chat agree. -/
theorem claim_C2_prompt_window (history : List Message) (msg : String) :
    assembleMessages history msg
      = { role := "system", content := get_system_prompt } ::
          ((lastN 10 history).map
              (fun m => { role := m.role, content := m.content })
            ++ [{ role := "user", content := msg }])
    ∧ (assembleMessages history msg).length = min 10 history.length + 2
    ∧ (history.length = 30 → (assembleMessages history msg).length = 12)
    ∧ ∀ (st : Store) (cido : Option String) (fresh uid aid : String)
        (u1 u2 : List PromptEntry → Except Unit String) (ts fts : Nat),
        u1 (assembleMessages
              (get_conversation_history (resolveConversation st cido fresh).2
                (resolveConversation st cido fresh).1) msg)
          = u2 (assembleMessages
              (get_conversation_history (resolveConversation st cido fresh).2
                (resolveConversation st cido fresh).1) msg) →
        chat st msg cido fresh uid aid u1 ts fts
          = chat st msg cido fresh uid aid u2 ts fts := by
  refine ⟨rfl, ?_, ?_, ?_⟩
  · simp [assembleMessages, lastN_length]
  · intro h
    simp [assembleMessages, lastN_length, h]
  · intro st cido fresh uid aid u1 u2 ts fts h
    show chatCore (resolveConversation st cido fresh).2
        (resolveConversation st cido fresh).1 msg uid aid u1 ts fts
      = chatCore (resolveConversation st cido fresh).2
        (resolveConversation st cido fresh).1 msg uid aid u2 ts fts
    exact chatCore_congr _ _ msg uid aid u1 u2 ts fts h

/-- Claim C2 witness: a 30-message history yields a 12-entry prompt, and
chat is unchanged when the upstream function is replaced by one agreeing on
the assembled prompt. -/
theorem claim_C2_witness :
    (assembleMessages
        (List.replicate 30
          { id := "x", role := "user", content := "m", timestamp := 0 })
        "q").length = 12
    ∧ chat [] "q" none "c" "u1" "a1" (okUpstream "r") 3 9
        = chat [] "q" none "c" "u1" "a1" (okUpstream "r") 3 9 :=
  ⟨(claim_C2_prompt_window
      (List.replicate 30
        { id := "x", role := "user", content := "m", timestamp := 0 })
      "q").2.2.1 (by simp),
   (claim_C2_prompt_window [] "q").2.2.2 [] none "c" "u1" "a1"
     (okUpstream "r") (okUpstream "r") 3 9 rfl⟩

/-- Claim C3: on an existing conversation (any non-empty id present in the
store) a successful chat call appends exactly a user message with the
submitted text followed by an assistant message with the upstream reply,
growing the history by exactly two, while a failed upstream call leaves the
store unchanged; and on any store, a chat call without a conversation id
stores exactly those two messages, in order, under the returned fresh id. -/
theorem claim_C3_history_growth (st : Store) (msg fresh uid aid resp : String)
    (u : List PromptEntry → Except Unit String) (ts fts : Nat) :
    (∀ cid : String, cid ≠ "" →
      ∀ ms : List Message, lookupConv st cid = some ms →
        (u (assembleMessages ms msg) = Except.ok resp →
          get_conversation_history
              (chat st msg (some cid) fresh uid aid u ts fts).2 cid
            = ms ++ [{ id := uid, role := "user", content := msg,
                       timestamp := ts },
                     { id := aid, role := "assistant", content := resp,
                       timestamp := ts }]
          ∧ (get_conversation_history
                (chat st msg (some cid) fresh uid aid u ts fts).2 cid).length
            = ms.length + 2)
        ∧ (u (assembleMessages ms msg) = Except.error () →
            (chat st msg (some cid) fresh uid aid u ts fts).2 = st))
    ∧ (u (assembleMessages [] msg) = Except.ok resp →
        get_conversation_history
            (chat st msg none fresh uid aid u ts fts).2 fresh
          = [{ id := uid, role := "user", content := msg, timestamp := ts },
             { id := aid, role := "assistant", content := resp,
               timestamp := ts }]) := by
  constructor
  · intro cid hcid ms hex
    have hres : resolveConversation st (some cid) fresh = (cid, st) := by
      simp [resolveConversation, isFalsyId, hcid]
    have hchat : ∀ v : List PromptEntry → Except Unit String,
        chat st msg (some cid) fresh uid aid v ts fts
          = chatCore st cid msg uid aid v ts fts := by
      intro v
      show chatCore (resolveConversation st (some cid) fresh).2
          (resolveConversation st (some cid) fresh).1 msg uid aid v ts fts
        = chatCore st cid msg uid aid v ts fts
      rw [hres]
    constructor
    · intro hu
      rw [hchat, chatCore_ok st cid msg uid aid resp u ts fts ms hex hu]
      constructor
      · simp [get_conversation_history, lookupConv_setConv]
      · simp [get_conversation_history, lookupConv_setConv]
    · intro hu
      rw [hchat, chatCore_upstream_err st cid msg uid aid u ts fts
        (by simpa [hex] using hu)]
  · intro hu
    have hres0 : resolveConversation st none fresh
        = (fresh, setConv st fresh []) := rfl
    have hex0 : lookupConv (setConv st fresh []) fresh = some [] := by
      simp [lookupConv_setConv]
    show get_conversation_history
        (chatCore (resolveConversation st none fresh).2
          (resolveConversation st none fresh).1 msg uid aid u ts fts).2 fresh
      = _
    rw [hres0]
    rw [chatCore_ok (setConv st fresh []) fresh msg uid aid resp u ts fts []
      hex0 hu]
    simp [get_conversation_history, lookupConv_setConv, setConv_setConv]

/-- Claim C3 witness: on a one-conversation store, a successful chat grows
the history to the user/assistant pair and a failing chat leaves the store
as it was; a chat on the empty store with no conversation id stores the
pair under the fresh id. -/
theorem claim_C3_witness :
    get_conversation_history
        (chat [("c", [])] "hi" (some "c") "f" "u1" "a1"
          (okUpstream "r") 3 9).2 "c"
      = [{ id := "u1", role := "user", content := "hi", timestamp := 3 },
         { id := "a1", role := "assistant", content := "r", timestamp := 3 }]
    ∧ (chat [("c", [])] "hi" (some "c") "f" "u1" "a1"
        failingUpstream 3 9).2 = [("c", [])]
    ∧ get_conversation_history
        (chat ([] : Store) "hi" none "f" "u1" "a1"
          (okUpstream "r") 3 9).2 "f"
      = [{ id := "u1", role := "user", content := "hi", timestamp := 3 },
         { id := "a1", role := "assistant", content := "r", timestamp := 3 }] :=
  ⟨(((claim_C3_history_growth [("c", [])] "hi" "f" "u1" "a1" "r"
        (okUpstream "r") 3 9).1 "c" (by decide) [] rfl).1 rfl).1,
   ((claim_C3_history_growth [("c", [])] "hi" "f" "u1" "a1" "r"
        failingUpstream 3 9).1 "c" (by decide) [] rfl).2 rfl,
   (claim_C3_history_growth ([] : Store) "hi" "f" "u1" "a1" "r"
        (okUpstream "r") 3 9).2 rfl⟩

/-- Claim C8: on a successful chat turn the appended user and assistant
messages carry the same timestamp value, and that value is also the
timestamp of the returned chat result. -/
theorem claim_C8_shared_timestamp (st : Store) (msg : String)
    (cido : Option String) (fresh uid aid resp : String)
    (u : List PromptEntry → Except Unit String) (ts fts : Nat)
    (ms : List Message)
    (hex : lookupConv (resolveConversation st cido fresh).2
             (resolveConversation st cido fresh).1 = some ms)
    (hu : u (assembleMessages ms msg) = Except.ok resp) :
    (chat st msg cido fresh uid aid u ts fts).1.timestamp = ts
    ∧ get_conversation_history (chat st msg cido fresh uid aid u ts fts).2
        (resolveConversation st cido fresh).1
      = ms ++ [{ id := uid, role := "user", content := msg, timestamp := ts },
               { id := aid, role := "assistant", content := resp,
                 timestamp := ts }] := by
  have hchat : chat st msg cido fresh uid aid u ts fts
      = chatCore (resolveConversation st cido fresh).2
          (resolveConversation st cido fresh).1 msg uid aid u ts fts := rfl
  rw [hchat, chatCore_ok _ _ msg uid aid resp u ts fts ms hex hu]
  exact ⟨rfl, by simp [get_conversation_history, lookupConv_setConv]⟩

/-- Claim C8 witness: a successful turn on conversation c returns timestamp
3 and stores the user and assistant messages both timestamped 3. -/
theorem claim_C8_witness :
    (chat [("c", [])] "hi" (some "c") "f" "u1" "a1"
        (okUpstream "r") 3 9).1.timestamp = 3
    ∧ get_conversation_history
        (chat [("c", [])] "hi" (some "c") "f" "u1" "a1"
          (okUpstream "r") 3 9).2
        (resolveConversation [("c", [])] (some "c") "f").1
      = [{ id := "u1", role := "user", content := "hi", timestamp := 3 },
         { id := "a1", role := "assistant", content := "r", timestamp := 3 }] :=
  claim_C8_shared_timestamp [("c", [])] "hi" (some "c") "f" "u1" "a1" "r"
    (okUpstream "r") 3 9 [] rfl rfl

/-- Claim C1 counterexample: the claim says the store is left unchanged on
upstream failure, but when no conversation id is supplied the store gains a
new empty conversation for the generated id before the upstream call, so
chat on the empty store with a failing upstream does not return the empty
store. -/
theorem claim_C1_counterexample :
    (chat [] "hi" none "c" "u1" "a1" failingUpstream 3 9).2 ≠ ([] : Store) := by
  decide

/-- Claim C1 (amended): on upstream failure no message is appended to any
conversation and the result carries the fixed apology string, the operating
conversation id and the failure-time timestamp; the store is exactly the
store after the id-resolution step — unchanged when a non-falsy id was
supplied, and with one new empty conversation under the fresh id when no id
(or the empty string) was supplied. -/
theorem claim_C1_upstream_failure (st : Store) (msg : String)
    (cido : Option String) (fresh uid aid : String)
    (u : List PromptEntry → Except Unit String) (ts fts : Nat)
    (hu : u (assembleMessages
        (get_conversation_history (resolveConversation st cido fresh).2
          (resolveConversation st cido fresh).1) msg) = Except.error ()) :
    chat st msg cido fresh uid aid u ts fts
      = ({ message := apologyMessage,
           conversation_id := (resolveConversation st cido fresh).1,
           timestamp := fts }, (resolveConversation st cido fresh).2)
    ∧ (isFalsyId cido = false → (resolveConversation st cido fresh).2 = st)
    ∧ (isFalsyId cido = true →
        (resolveConversation st cido fresh).2 = setConv st fresh []
        ∧ lookupConv (setConv st fresh []) fresh = some []) := by
  refine ⟨?_, ?_, ?_⟩
  · show chatCore (resolveConversation st cido fresh).2
        (resolveConversation st cido fresh).1 msg uid aid u ts fts = _
    exact chatCore_upstream_err _ _ msg uid aid u ts fts hu
  · intro h
    simp [resolveConversation, h]
  · intro h
    refine ⟨by simp [resolveConversation, h], by simp [lookupConv_setConv]⟩

/-- Claim C1 witness: with a failing upstream, chat on a supplied id leaves
the store untouched and returns the apology with that id, and chat with no
id leaves only a new empty conversation under the fresh id. -/
theorem claim_C1_witness :
    chat [] "hi" (some "c") "f" "u1" "a1" failingUpstream 3 9
      = ({ message := apologyMessage, conversation_id := "c",
           timestamp := 9 }, ([] : Store))
    ∧ (resolveConversation [] (some "c") "f").2 = ([] : Store)
    ∧ (chat [] "hi" none "f" "u1" "a1" failingUpstream 3 9).2 = [("f", [])]
    ∧ lookupConv (setConv ([] : Store) "f" []) "f" = some [] := by
  have hsupplied := claim_C1_upstream_failure [] "hi" (some "c") "f" "u1" "a1"
    failingUpstream 3 9 rfl
  have hnone := claim_C1_upstream_failure [] "hi" none "f" "u1" "a1"
    failingUpstream 3 9 rfl
  refine ⟨?_, hsupplied.2.1 rfl, ?_, (hnone.2.2 rfl).2⟩
  · simpa [resolveConversation, isFalsyId] using hsupplied.1
  · rw [hnone.1]
    rfl

/-- Claim C4 counterexample: the claim says that chat with a supplied id
absent from the store creates the conversation after a successful upstream
response, completes normally and leaves the two turn messages in the
history; in fact the append fails on the missing key, the error handler
swallows it, the apology is returned instead of the upstream reply and the
history for that id stays empty. -/
theorem claim_C4_counterexample :
    (chat [] "hi" (some "c") "f" "u1" "a1"
        (okUpstream "Hi there") 3 9).1.message = apologyMessage
    ∧ get_conversation_history
        (chat [] "hi" (some "c") "f" "u1" "a1"
          (okUpstream "Hi there") 3 9).2 "c" = [] := by
  constructor <;> rfl

/-- Claim C4 (amended): when the supplied conversation id is not falsy and
not present in the store, the append performed after the upstream call hits
a missing-key lookup failure which the error handler swallows: chat returns
the fixed apology with that id and the failure-time timestamp, and the
store is unchanged — no conversation is created and no message stored.
This holds whether the upstream call succeeds or fails. -/
theorem claim_C4_absent_id (st : Store) (msg cid fresh uid aid : String)
    (u : List PromptEntry → Except Unit String) (ts fts : Nat)
    (hcid : cid ≠ "") (habs : lookupConv st cid = none) :
    chat st msg (some cid) fresh uid aid u ts fts
      = ({ message := apologyMessage, conversation_id := cid,
           timestamp := fts }, st) := by
  have hres : resolveConversation st (some cid) fresh = (cid, st) := by
    simp [resolveConversation, isFalsyId, hcid]
  show chatCore (resolveConversation st (some cid) fresh).2
      (resolveConversation st (some cid) fresh).1 msg uid aid u ts fts = _
  rw [hres]
  exact chatCore_absent st cid msg uid aid u ts fts habs

/-- Claim C4 witness: chat on an unknown supplied id with a successful
upstream returns the apology and leaves the empty store empty. -/
theorem claim_C4_witness :
    chat [] "hi" (some "c") "f" "u1" "a1" (okUpstream "Hi there") 3 9
      = ({ message := apologyMessage, conversation_id := "c",
           timestamp := 9 }, ([] : Store)) :=
  claim_C4_absent_id [] "hi" "c" "f" "u1" "a1" (okUpstream "Hi there") 3 9
    (by decide) rfl

lemma reachable_storeAlt {st : Store} (h : Reachable st) : StoreAlt st := by
  induction h with
  | init => intro c m hm; cases hm
  | step_chat st msg cido fresh uid aid u ts fts hr ih =>
      exact storeAlt_chatCore (storeAlt_resolve ih cido fresh)
        _ msg uid aid u ts fts
  | step_clear st c hr ih =>
      unfold clear_conversation
      split
      · exact storeAlt_erase ih c
      · exact ih

/-- Claim C5: in every store state reachable from the empty store by chat,
get_conversation_history and clear_conversation operations, every stored
conversation alternates user, assistant, user, assistant, ... starting with
a user message, and hence has even length. -/
theorem claim_C5_alternation (st : Store) (h : Reachable st) (cid : String)
    (ms : List Message) (hms : lookupConv st cid = some ms) :
    Alternating ms ∧ ms.length % 2 = 0 := by
  have halt : StoreAlt st := reachable_storeAlt h
  exact ⟨halt cid ms hms, (halt cid ms hms).length_even⟩

/-- Claim C5 witness: the store reached by one successful chat from the
empty store holds the alternating user/assistant pair of that turn. -/
theorem claim_C5_witness :
    Alternating
      [{ id := "u1", role := "user", content := "hi", timestamp := 3 },
       { id := "a1", role := "assistant", content := "yo", timestamp := 3 }]
    ∧ ([{ id := "u1", role := "user", content := "hi", timestamp := 3 },
        { id := "a1", role := "assistant", content := "yo",
          timestamp := 3 }] : List Message).length % 2 = 0 :=
  claim_C5_alternation
    (chat [] "hi" none "c" "u1" "a1" (okUpstream "yo") 3 9).2
    (Reachable.step_chat [] "hi" none "c" "u1" "a1" (okUpstream "yo") 3 9
      Reachable.init)
    "c" _ rfl
